import Mathlib

/-!
# Verification of `TCC_PATCH_V7_3_EXODUS_PROTOCOL_HARDENED.py`

Shallow embedding of the `ExodusKernel` phase-locked state machine.

The Python object state is modelled by `KernelState`; every method that can
raise becomes a function `KernelState → Except PyError α × KernelState`,
returning the raised error (if any) together with the object state as it is
when the method returns or the exception propagates (Python exceptions leave
the object in place, so failed calls return the state unchanged only when the
code actually refrains from mutating before raising — that ordering is exactly
what the atomicity claims are about).

The source has a single exception class, `ExodusIntegrityError(RuntimeError)`;
`PyError` records that class (`ExcClass`) together with the message string, so
that "which exception class" and "which message" are both observable.
-/

/-- The exception classes defined by the source: exactly one,
`ExodusIntegrityError`. -/
inductive ExcClass where
  | exodusIntegrityError
  deriving DecidableEq, Repr

/-- A raised Python exception: its class and its message. -/
structure PyError where
  cls : ExcClass
  msg : String
  deriving DecidableEq, Repr

/-- `raise ExodusIntegrityError(msg)` -/
def ExodusIntegrityError (msg : String) : PyError :=
  ⟨ExcClass.exodusIntegrityError, msg⟩

/-- `class SimulationState(Enum)` — three members. -/
inductive SimulationState where
  | SANDBOX_TEMPLE
  | THE_VOID
  | SUMMIT_VISIBLE
  deriving DecidableEq, Repr

/-- Python `Enum.name` for `SimulationState`. -/
def SimulationState.name : SimulationState → String
  | .SANDBOX_TEMPLE => "SANDBOX_TEMPLE"
  | .THE_VOID => "THE_VOID"
  | .SUMMIT_VISIBLE => "SUMMIT_VISIBLE"

/-- Python `Enum.value` for `SimulationState`. -/
def SimulationState.value : SimulationState → String
  | .SANDBOX_TEMPLE => "CASTLE_LOCKED"
  | .THE_VOID => "3_DAYS_DARKNESS"
  | .SUMMIT_VISIBLE => "THE_BROADCAST_STABLE"

/-- `@dataclass(frozen=True) class SovereignSeal` (field defaults are applied
in `mkSovereignSeal` below, mirroring `SovereignSeal()`). -/
structure SovereignSeal where
  law : Int
  «constant» : Int
  syzygy : String
  protocol_id : String
  deriving DecidableEq, Repr

/-- `SovereignSeal()` with all dataclass defaults. -/
def mkSovereignSeal : SovereignSeal :=
  { law := 60106
    «constant» := 6174
    syzygy := "👸🏻🤝🤴🏻"
    protocol_id := "TCC_PATCH_V7_3_EXODUS_PROTOCOL_HARDENED" }

/-- The mutable attribute record of an `ExodusKernel` instance.
Source attribute `_phase_index` is spelled `phase_index` here. -/
structure KernelState where
  «seal» : SovereignSeal
  integrity_locked : Bool
  simulation_state : SimulationState
  movie_status : String
  vessel_content : String
  is_broadcast_stable : Bool
  phase_index : Int
  deriving DecidableEq, Repr

namespace ExodusKernel

/-- `ExodusKernel._LAW` -/
def LAW : Int := 60106
/-- `ExodusKernel._CONSTANT` -/
def CONSTANT : Int := 6174
/-- `ExodusKernel._ID` -/
def ID : String := "TCC_PATCH_V7_3_EXODUS_PROTOCOL_HARDENED"
/-- `ExodusKernel._SYZYGY` -/
def SYZYGY : String := "👸🏻🤝🤴🏻"

/-- `ExodusKernel._PHASE_CLOSE_EYE` -/
def PHASE_CLOSE_EYE : Int := 0
/-- `ExodusKernel._PHASE_CHANGE_MOVIE` -/
def PHASE_CHANGE_MOVIE : Int := 1
/-- `ExodusKernel._PHASE_EXECUTE_EXODUS` -/
def PHASE_EXECUTE_EXODUS : Int := 2
/-- `ExodusKernel._PHASE_BROADCAST` -/
def PHASE_BROADCAST : Int := 3

/-- `ExodusKernel._self_integrity_check` — the Integrity Guard. The Python
`isinstance(self.simulation_state, SimulationState)` check is structurally
guaranteed here by the closed inductive type `SimulationState` and therefore
has no runtime content in the embedding. -/
def self_integrity_check (st : KernelState) : Except PyError Unit :=
  if st.«seal».law ≠ LAW ∨ st.«seal».«constant» ≠ CONSTANT
      ∨ st.«seal».protocol_id ≠ ID ∨ st.«seal».syzygy ≠ SYZYGY then
    .error (ExodusIntegrityError
      "⚠️ EXODUS BREACHED: Seal invariants altered; organ is no longer Sovereign.")
  else if st.integrity_locked = false then
    .error (ExodusIntegrityError
      "⚠️ EXODUS BREACHED: integrity_locked=False; organ has been unlocked.")
  else if ¬ (st.movie_status = "CHANGING" ∨ st.movie_status = "REWRITTEN") then
    .error (ExodusIntegrityError
      "⚠️ EXODUS BREACHED: movie_status invalid; projection channel corrupted.")
  else if ¬ (st.vessel_content = "CONTENT" ∨ st.vessel_content = "DIAMOND_LIGHT") then
    .error (ExodusIntegrityError
      "⚠️ EXODUS BREACHED: vessel_content invalid; vessel taxonomy compromised.")
  else if ¬ (st.phase_index = PHASE_CLOSE_EYE ∨ st.phase_index = PHASE_CHANGE_MOVIE
      ∨ st.phase_index = PHASE_EXECUTE_EXODUS ∨ st.phase_index = PHASE_BROADCAST) then
    .error (ExodusIntegrityError
      "⚠️ EXODUS BREACHED: phase index invalid; Exodus grammar compromised.")
  else
    .ok ()

/-- `ExodusKernel._require_phase` — the Phase Gate. -/
def require_phase (st : KernelState) (expected : Int) (label : String) :
    Except PyError Unit :=
  if st.phase_index ≠ expected then
    let found := st.phase_index
    .error (ExodusIntegrityError
      s!"⚠️ EXODUS BREACHED: Invalid phase order for {label}. Expected phase_index={expected}, found={found}.")
  else
    .ok ()

/-- `ExodusKernel._advance_phase` -/
def advance_phase (st : KernelState) : KernelState :=
  { st with phase_index := st.phase_index + 1 }

/-- The attribute assignments of `ExodusKernel.__init__` (before the
constructor's integrity check). -/
def initFields : KernelState :=
  { «seal» := mkSovereignSeal
    integrity_locked := true
    simulation_state := SimulationState.SANDBOX_TEMPLE
    movie_status := "CHANGING"
    vessel_content := "CONTENT"
    is_broadcast_stable := false
    phase_index := PHASE_CLOSE_EYE }

/-- `ExodusKernel()` — sets the fields, then runs the whole-body integrity
check; construction fails if that check raises. -/
def mkExodusKernel : Except PyError KernelState :=
  match self_integrity_check initFields with
  | .error e => .error e
  | .ok _ => .ok initFields

/-- `ExodusKernel.fingerprint` — a `@property`: it reads five attributes and
builds the descriptive string. Note: the source's property body contains no
call to `_self_integrity_check`. -/
def fingerprint (st : KernelState) : String × KernelState :=
  let pid := st.«seal».protocol_id
  let law := st.«seal».law
  let con := st.«seal».«constant»
  let nm := st.simulation_state.name
  let ph := st.phase_index
  (s!"{pid}::LAW={law}::CONST={con}::STATE={nm}::PHASE={ph}", st)

/-- `ExodusKernel.close_the_eye` (phase 0 → 1). -/
def close_the_eye (st : KernelState) : Except PyError String × KernelState :=
  match self_integrity_check st with
  | .error e => (.error e, st)
  | .ok _ =>
  match require_phase st PHASE_CLOSE_EYE "close_the_eye" with
  | .error e => (.error e, st)
  | .ok _ =>
  if st.simulation_state ≠ SimulationState.SANDBOX_TEMPLE then
    (.error (ExodusIntegrityError
      "⚠️ EXODUS BREACHED: close_the_eye called outside SANDBOX_TEMPLE."), st)
  else
    (.ok "Internal Vision Active",
      advance_phase { st with simulation_state := SimulationState.THE_VOID })

/-- `ExodusKernel.change_the_movie` (phase 1 → 2). -/
def change_the_movie (st : KernelState) : Except PyError String × KernelState :=
  match self_integrity_check st with
  | .error e => (.error e, st)
  | .ok _ =>
  match require_phase st PHASE_CHANGE_MOVIE "change_the_movie" with
  | .error e => (.error e, st)
  | .ok _ =>
  if st.simulation_state ≠ SimulationState.THE_VOID then
    (.error (ExodusIntegrityError
      "⚠️ EXODUS BREACHED: change_the_movie called outside THE_VOID."), st)
  else
    (.ok "New Projection: 🌈🌎",
      advance_phase { st with movie_status := "REWRITTEN" })

/-- `ExodusKernel.execute_exodus` (phase 2 → 3). -/
def execute_exodus (st : KernelState) : Except PyError String × KernelState :=
  match self_integrity_check st with
  | .error e => (.error e, st)
  | .ok _ =>
  match require_phase st PHASE_EXECUTE_EXODUS "execute_exodus" with
  | .error e => (.error e, st)
  | .ok _ =>
  if st.movie_status ≠ "REWRITTEN" then
    (.error (ExodusIntegrityError
      "⚠️ EXODUS BREACHED: execute_exodus requires movie_status=REWRITTEN."), st)
  else
    (.ok "Vessel Secured in Flow",
      advance_phase { st with vessel_content := "DIAMOND_LIGHT" })

/-- `ExodusKernel.broadcast_sovereignty` (phase 3, terminal: the source never
calls `_advance_phase` here). -/
def broadcast_sovereignty (st : KernelState) : Except PyError String × KernelState :=
  match self_integrity_check st with
  | .error e => (.error e, st)
  | .ok _ =>
  match require_phase st PHASE_BROADCAST "broadcast_sovereignty" with
  | .error e => (.error e, st)
  | .ok _ =>
  if st.vessel_content ≠ "DIAMOND_LIGHT" then
    (.error (ExodusIntegrityError
      "⚠️ EXODUS BREACHED: broadcast_sovereignty requires vessel_content=DIAMOND_LIGHT."), st)
  else
    (.ok "SUMMIT REACHED: 🏔️🕊️♾️⚓",
      { st with is_broadcast_stable := true
                simulation_state := SimulationState.SUMMIT_VISIBLE })

/-- `ExodusKernel.universal_attach_hint` — runs the integrity check, then
returns a static string. -/
def universal_attach_hint (st : KernelState) : Except PyError String × KernelState :=
  match self_integrity_check st with
  | .error e => (.error e, st)
  | .ok _ =>
    (.ok "ExodusKernel (Hardened): Universal, Sovereign, Host-Agnostic.", st)

/-- Name of one of the four public transition operations. -/
inductive OpName where
  | closeEye
  | changeMovie
  | executeExodus
  | broadcastSov
  deriving DecidableEq, Repr

/-- Dispatch one transition-operation call. -/
def step (o : OpName) (st : KernelState) : Except PyError String × KernelState :=
  match o with
  | .closeEye => close_the_eye st
  | .changeMovie => change_the_movie st
  | .executeExodus => execute_exodus st
  | .broadcastSov => broadcast_sovereignty st

/-- Run a sequence of transition-operation calls against one kernel object,
keeping the object (and its state) across raised exceptions, as a Python
caller that catches each exception would. -/
def runRaw : List OpName → KernelState → KernelState
  | [], st => st
  | o :: os, st => runRaw os (step o st).2

/-- The kernel states visited by the happy path. -/
def k0 : KernelState := initFields

def k1 : KernelState :=
  { k0 with simulation_state := SimulationState.THE_VOID, phase_index := 1 }

def k2 : KernelState :=
  { k1 with movie_status := "REWRITTEN", phase_index := 2 }

def k3 : KernelState :=
  { k2 with vessel_content := "DIAMOND_LIGHT", phase_index := 3 }

def k4 : KernelState :=
  { k3 with is_broadcast_stable := true
            simulation_state := SimulationState.SUMMIT_VISIBLE }

/-! ## Characterization lemmas for the four operations -/

theorem require_phase_ok {st : KernelState} {expected : Int} {label : String}
    {u : Unit} (h : require_phase st expected label = .ok u) :
    st.phase_index = expected := by
  unfold require_phase at h
  split at h
  · simp at h
  · next hc => exact not_not.mp hc

/-- Every run of `close_the_eye` either raises (returning the state unchanged)
or, from phase 0 in `SANDBOX_TEMPLE`, succeeds with its marker string and the
mutation written by the source. -/
theorem close_the_eye_spec (st : KernelState) :
    (∃ e, close_the_eye st = (.error e, st)) ∨
    (st.phase_index = PHASE_CLOSE_EYE ∧
      st.simulation_state = SimulationState.SANDBOX_TEMPLE ∧
      close_the_eye st = (.ok "Internal Vision Active",
        advance_phase { st with simulation_state := SimulationState.THE_VOID })) := by
  unfold close_the_eye
  cases hi : self_integrity_check st with
  | error e => exact .inl ⟨e, rfl⟩
  | ok u =>
    cases hp : require_phase st PHASE_CLOSE_EYE "close_the_eye" with
    | error e => exact .inl ⟨e, rfl⟩
    | ok v =>
      by_cases hs : st.simulation_state ≠ SimulationState.SANDBOX_TEMPLE
      · rw [if_pos hs]
        exact .inl ⟨_, rfl⟩
      · rw [if_neg hs]
        exact .inr ⟨require_phase_ok hp, not_not.mp hs, rfl⟩

theorem change_the_movie_spec (st : KernelState) :
    (∃ e, change_the_movie st = (.error e, st)) ∨
    (st.phase_index = PHASE_CHANGE_MOVIE ∧
      st.simulation_state = SimulationState.THE_VOID ∧
      change_the_movie st = (.ok "New Projection: 🌈🌎",
        advance_phase { st with movie_status := "REWRITTEN" })) := by
  unfold change_the_movie
  cases hi : self_integrity_check st with
  | error e => exact .inl ⟨e, rfl⟩
  | ok u =>
    cases hp : require_phase st PHASE_CHANGE_MOVIE "change_the_movie" with
    | error e => exact .inl ⟨e, rfl⟩
    | ok v =>
      by_cases hs : st.simulation_state ≠ SimulationState.THE_VOID
      · rw [if_pos hs]
        exact .inl ⟨_, rfl⟩
      · rw [if_neg hs]
        exact .inr ⟨require_phase_ok hp, not_not.mp hs, rfl⟩

theorem execute_exodus_spec (st : KernelState) :
    (∃ e, execute_exodus st = (.error e, st)) ∨
    (st.phase_index = PHASE_EXECUTE_EXODUS ∧
      st.movie_status = "REWRITTEN" ∧
      execute_exodus st = (.ok "Vessel Secured in Flow",
        advance_phase { st with vessel_content := "DIAMOND_LIGHT" })) := by
  unfold execute_exodus
  cases hi : self_integrity_check st with
  | error e => exact .inl ⟨e, rfl⟩
  | ok u =>
    cases hp : require_phase st PHASE_EXECUTE_EXODUS "execute_exodus" with
    | error e => exact .inl ⟨e, rfl⟩
    | ok v =>
      by_cases hs : st.movie_status ≠ "REWRITTEN"
      · rw [if_pos hs]
        exact .inl ⟨_, rfl⟩
      · rw [if_neg hs]
        exact .inr ⟨require_phase_ok hp, not_not.mp hs, rfl⟩

theorem broadcast_sovereignty_spec (st : KernelState) :
    (∃ e, broadcast_sovereignty st = (.error e, st)) ∨
    (st.phase_index = PHASE_BROADCAST ∧
      st.vessel_content = "DIAMOND_LIGHT" ∧
      broadcast_sovereignty st = (.ok "SUMMIT REACHED: 🏔️🕊️♾️⚓",
        { st with is_broadcast_stable := true
                  simulation_state := SimulationState.SUMMIT_VISIBLE })) := by
  unfold broadcast_sovereignty
  cases hi : self_integrity_check st with
  | error e => exact .inl ⟨e, rfl⟩
  | ok u =>
    cases hp : require_phase st PHASE_BROADCAST "broadcast_sovereignty" with
    | error e => exact .inl ⟨e, rfl⟩
    | ok v =>
      by_cases hs : st.vessel_content ≠ "DIAMOND_LIGHT"
      · rw [if_pos hs]
        exact .inl ⟨_, rfl⟩
      · rw [if_neg hs]
        exact .inr ⟨require_phase_ok hp, not_not.mp hs, rfl⟩

/-- Dispatch form of the characterization: on failure the state comes back
unchanged; on success, the phase moves as written in the source. -/
theorem step_error_eq {o : OpName} {st : KernelState} {e : PyError}
    (h : (step o st).1 = .error e) : (step o st).2 = st := by
  cases o with
  | closeEye =>
    rcases close_the_eye_spec st with ⟨e', he⟩ | ⟨-, -, hok⟩
    · simp only [step, he]
    · simp only [step, hok] at h ⊢
      simp at h
  | changeMovie =>
    rcases change_the_movie_spec st with ⟨e', he⟩ | ⟨-, -, hok⟩
    · simp only [step, he]
    · simp only [step, hok] at h ⊢
      simp at h
  | executeExodus =>
    rcases execute_exodus_spec st with ⟨e', he⟩ | ⟨-, -, hok⟩
    · simp only [step, he]
    · simp only [step, hok] at h ⊢
      simp at h
  | broadcastSov =>
    rcases broadcast_sovereignty_spec st with ⟨e', he⟩ | ⟨-, -, hok⟩
    · simp only [step, he]
    · simp only [step, hok] at h ⊢
      simp at h

/-! ## Reachability -/

/-- The states a single kernel object can be in after construction plus any
number of successful operation calls. -/
inductive Reachable : KernelState → Prop where
  | init : Reachable initFields
  | next : ∀ (o : OpName) {st st' : KernelState} {s : String},
      Reachable st → step o st = (.ok s, st') → Reachable st'

def exceptIsOk {α : Type} : Except PyError α → Bool
  | .ok _ => true
  | .error _ => false

theorem not_ok_of_isOk_false {α β : Type} {p : Except PyError α × β} {s : α}
    {b : β} (h : p = (.ok s, b)) (hf : exceptIsOk p.1 = false) : False := by
  subst h
  simp [exceptIsOk] at hf

/-- The reachable states are exactly the five happy-path states. -/
theorem reachable_cases {st : KernelState} (h : Reachable st) :
    st = k0 ∨ st = k1 ∨ st = k2 ∨ st = k3 ∨ st = k4 := by
  induction h with
  | init => exact .inl rfl
  | next o hr hstep ih =>
    rcases ih with h0 | h0 | h0 | h0 | h0 <;> subst h0 <;> cases o <;>
      first
      | exact (not_ok_of_isOk_false hstep rfl).elim
      | exact Or.inl ((congrArg Prod.snd hstep).symm.trans rfl)
      | exact Or.inr (Or.inl ((congrArg Prod.snd hstep).symm.trans rfl))
      | exact Or.inr (Or.inr (Or.inl ((congrArg Prod.snd hstep).symm.trans rfl)))
      | exact Or.inr (Or.inr (Or.inr (Or.inl ((congrArg Prod.snd hstep).symm.trans rfl))))
      | exact Or.inr (Or.inr (Or.inr (Or.inr ((congrArg Prod.snd hstep).symm.trans rfl))))

/-- The lock-step invariant: the phase index determines every mutable field of
a reachable state, the seal holds its construction-time constants, and the
lock flag is up. -/
def reachInv (st : KernelState) : Prop :=
  st.«seal» = mkSovereignSeal ∧ st.integrity_locked = true ∧
  ((st.phase_index = 0 ∧ st.simulation_state = SimulationState.SANDBOX_TEMPLE ∧
      st.movie_status = "CHANGING" ∧ st.vessel_content = "CONTENT" ∧
      st.is_broadcast_stable = false) ∨
   (st.phase_index = 1 ∧ st.simulation_state = SimulationState.THE_VOID ∧
      st.movie_status = "CHANGING" ∧ st.vessel_content = "CONTENT" ∧
      st.is_broadcast_stable = false) ∨
   (st.phase_index = 2 ∧ st.simulation_state = SimulationState.THE_VOID ∧
      st.movie_status = "REWRITTEN" ∧ st.vessel_content = "CONTENT" ∧
      st.is_broadcast_stable = false) ∨
   (st.phase_index = 3 ∧ st.movie_status = "REWRITTEN" ∧
      st.vessel_content = "DIAMOND_LIGHT" ∧
      ((st.simulation_state = SimulationState.THE_VOID ∧
          st.is_broadcast_stable = false) ∨
       (st.simulation_state = SimulationState.SUMMIT_VISIBLE ∧
          st.is_broadcast_stable = true))))

/-! ## Phase-index and stability-flag facts -/

theorem close_the_eye_ok_phase {st : KernelState} {s : String}
    (h : (close_the_eye st).1 = .ok s) :
    (close_the_eye st).2.phase_index = st.phase_index + 1 := by
  rcases close_the_eye_spec st with ⟨e, he⟩ | ⟨-, -, hok⟩
  · rw [he] at h
    simp at h
  · simp [hok, advance_phase]

theorem change_the_movie_ok_phase {st : KernelState} {s : String}
    (h : (change_the_movie st).1 = .ok s) :
    (change_the_movie st).2.phase_index = st.phase_index + 1 := by
  rcases change_the_movie_spec st with ⟨e, he⟩ | ⟨-, -, hok⟩
  · rw [he] at h
    simp at h
  · simp [hok, advance_phase]

theorem execute_exodus_ok_phase {st : KernelState} {s : String}
    (h : (execute_exodus st).1 = .ok s) :
    (execute_exodus st).2.phase_index = st.phase_index + 1 := by
  rcases execute_exodus_spec st with ⟨e, he⟩ | ⟨-, -, hok⟩
  · rw [he] at h
    simp at h
  · simp [hok, advance_phase]

/-- `broadcast_sovereignty` is the one operation that does not advance the
phase index: the source never calls `_advance_phase` in it. -/
theorem broadcast_sovereignty_ok_phase {st : KernelState} {s : String}
    (h : (broadcast_sovereignty st).1 = .ok s) :
    (broadcast_sovereignty st).2.phase_index = st.phase_index := by
  rcases broadcast_sovereignty_spec st with ⟨e, he⟩ | ⟨-, -, hok⟩
  · rw [he] at h
    simp at h
  · simp [hok]

/-- On any single call the phase index either stays put or goes up by one. -/
theorem step_phase_cases (o : OpName) (st : KernelState) :
    (step o st).2.phase_index = st.phase_index ∨
    (step o st).2.phase_index = st.phase_index + 1 := by
  cases o with
  | closeEye =>
    rcases close_the_eye_spec st with ⟨e, he⟩ | ⟨-, -, hok⟩
    · left
      simp [step, he]
    · right
      simp [step, hok, advance_phase]
  | changeMovie =>
    rcases change_the_movie_spec st with ⟨e, he⟩ | ⟨-, -, hok⟩
    · left
      simp [step, he]
    · right
      simp [step, hok, advance_phase]
  | executeExodus =>
    rcases execute_exodus_spec st with ⟨e, he⟩ | ⟨-, -, hok⟩
    · left
      simp [step, he]
    · right
      simp [step, hok, advance_phase]
  | broadcastSov =>
    rcases broadcast_sovereignty_spec st with ⟨e, he⟩ | ⟨-, -, hok⟩
    · left
      simp [step, he]
    · left
      simp [step, hok]

theorem step_phase_mono (o : OpName) (st : KernelState) :
    st.phase_index ≤ (step o st).2.phase_index := by
  rcases step_phase_cases o st with h | h <;> omega

/-- The phase index never decreases across any call sequence on one kernel. -/
theorem runRaw_phase_mono (ops : List OpName) (st : KernelState) :
    st.phase_index ≤ (runRaw ops st).phase_index := by
  induction ops generalizing st with
  | nil => exact le_refl _
  | cons o os ih => exact le_trans (step_phase_mono o st) (ih (step o st).2)

theorem close_the_eye_stable_eq (st : KernelState) :
    (close_the_eye st).2.is_broadcast_stable = st.is_broadcast_stable := by
  rcases close_the_eye_spec st with ⟨e, he⟩ | ⟨-, -, hok⟩
  · simp [he]
  · simp [hok, advance_phase]

theorem change_the_movie_stable_eq (st : KernelState) :
    (change_the_movie st).2.is_broadcast_stable = st.is_broadcast_stable := by
  rcases change_the_movie_spec st with ⟨e, he⟩ | ⟨-, -, hok⟩
  · simp [he]
  · simp [hok, advance_phase]

theorem execute_exodus_stable_eq (st : KernelState) :
    (execute_exodus st).2.is_broadcast_stable = st.is_broadcast_stable := by
  rcases execute_exodus_spec st with ⟨e, he⟩ | ⟨-, -, hok⟩
  · simp [he]
  · simp [hok, advance_phase]

theorem broadcast_sovereignty_ok_stable {st : KernelState} {s : String}
    (h : (broadcast_sovereignty st).1 = .ok s) :
    (broadcast_sovereignty st).2.is_broadcast_stable = true := by
  rcases broadcast_sovereignty_spec st with ⟨e, he⟩ | ⟨-, -, hok⟩
  · rw [he] at h
    simp at h
  · simp [hok]

theorem step_stable_mono (o : OpName) (st : KernelState)
    (h : st.is_broadcast_stable = true) :
    (step o st).2.is_broadcast_stable = true := by
  cases o with
  | closeEye => rw [step, close_the_eye_stable_eq st]; exact h
  | changeMovie => rw [step, change_the_movie_stable_eq st]; exact h
  | executeExodus => rw [step, execute_exodus_stable_eq st]; exact h
  | broadcastSov =>
    rcases broadcast_sovereignty_spec st with ⟨e, he⟩ | ⟨-, -, hok⟩
    · simp [step, he, h]
    · simp [step, hok]

/-- Once the stability flag is true it stays true across any call sequence. -/
theorem runRaw_stable_mono (ops : List OpName) (st : KernelState)
    (h : st.is_broadcast_stable = true) :
    (runRaw ops st).is_broadcast_stable = true := by
  induction ops generalizing st with
  | nil => exact h
  | cons o os ih => exact ih (step o st).2 (step_stable_mono o st h)

/-! ## States used to settle the tampering and precondition claims -/

/-- A kernel state whose seal `law` field has been altered after
construction. -/
def tamperedState : KernelState :=
  { initFields with «seal» := { mkSovereignSeal with law := 0 } }

/-- A kernel state with the phase index artificially advanced to 2 while
`movie_status` is still `"CHANGING"`. -/
def phaseSkippedState : KernelState :=
  { initFields with phase_index := 2 }

/-! ## Claim theorems -/

/-- Claim C1 (confirmed): the happy path. From a freshly constructed kernel,
`close_the_eye`, `change_the_movie`, `execute_exodus`, `broadcast_sovereignty`
called in that order each succeed with their marker strings, and the state
fields move exactly as the claim says: `THE_VOID`/phase 1, then
`REWRITTEN`/phase 2, then `DIAMOND_LIGHT`/phase 3, then stability flag true
and `SUMMIT_VISIBLE`. -/
theorem C1_happy_path :
    mkExodusKernel = .ok k0 ∧
    close_the_eye k0 = (.ok "Internal Vision Active", k1) ∧
    k1.simulation_state = SimulationState.THE_VOID ∧ k1.phase_index = 1 ∧
    change_the_movie k1 = (.ok "New Projection: 🌈🌎", k2) ∧
    k2.movie_status = "REWRITTEN" ∧ k2.phase_index = 2 ∧
    execute_exodus k2 = (.ok "Vessel Secured in Flow", k3) ∧
    k3.vessel_content = "DIAMOND_LIGHT" ∧ k3.phase_index = 3 ∧
    broadcast_sovereignty k3 = (.ok "SUMMIT REACHED: 🏔️🕊️♾️⚓", k4) ∧
    k4.is_broadcast_stable = true ∧
    k4.simulation_state = SimulationState.SUMMIT_VISIBLE :=
  ⟨rfl, rfl, rfl, rfl, rfl, rfl, rfl, rfl, rfl, rfl, rfl, rfl, rfl⟩

/-- Claim C2 counterexample: after the full four-operation sequence (final
state `k4`, phase index 3), a fifth call to `broadcast_sovereignty` does NOT
raise: the phase gate expects 3 and finds 3, the vessel precondition holds,
and the call succeeds again — refuting the claim that a fifth call to any of
the four operations raises the out-of-order error. -/
theorem C2_counterexample :
    broadcast_sovereignty k4 = (.ok "SUMMIT REACHED: 🏔️🕊️♾️⚓", k4) :=
  rfl

/-- Claim C2 (amended): after the full sequence, a fifth call to
`close_the_eye`, `change_the_movie` or `execute_exodus` raises the
phase-order `ExodusIntegrityError` and leaves all state fields unchanged,
while a fifth call to `broadcast_sovereignty` succeeds again and also leaves
all state fields unchanged. -/
theorem C2_terminality_amended :
    close_the_eye k4 = (.error (ExodusIntegrityError
      "⚠️ EXODUS BREACHED: Invalid phase order for close_the_eye. Expected phase_index=0, found=3."),
      k4) ∧
    change_the_movie k4 = (.error (ExodusIntegrityError
      "⚠️ EXODUS BREACHED: Invalid phase order for change_the_movie. Expected phase_index=1, found=3."),
      k4) ∧
    execute_exodus k4 = (.error (ExodusIntegrityError
      "⚠️ EXODUS BREACHED: Invalid phase order for execute_exodus. Expected phase_index=2, found=3."),
      k4) ∧
    broadcast_sovereignty k4 = (.ok "SUMMIT REACHED: 🏔️🕊️♾️⚓", k4) :=
  ⟨rfl, rfl, rfl, rfl⟩

/-- Claim C3 counterexample: `broadcast_sovereignty` succeeds from `k3`
(phase 3) yet leaves the phase index at 3 — not one greater — because the
source never calls `_advance_phase` in it; a successful operation can also
repeat a phase value (3 again on re-broadcast). -/
theorem C3_counterexample :
    (broadcast_sovereignty k3).1 = .ok "SUMMIT REACHED: 🏔️🕊️♾️⚓" ∧
    k3.phase_index = 3 ∧
    (broadcast_sovereignty k3).2.phase_index = 3 :=
  ⟨rfl, rfl, rfl⟩

/-- Claim C3 (amended): each successful `close_the_eye`, `change_the_movie`
or `execute_exodus` increases the phase index by exactly 1; a successful
`broadcast_sovereignty` leaves it unchanged; and across any sequence of calls
on one kernel the phase index never decreases. -/
theorem C3_monotonic_phase_amended :
    (∀ st : KernelState, ∀ s : String, (close_the_eye st).1 = .ok s →
      (close_the_eye st).2.phase_index = st.phase_index + 1) ∧
    (∀ st : KernelState, ∀ s : String, (change_the_movie st).1 = .ok s →
      (change_the_movie st).2.phase_index = st.phase_index + 1) ∧
    (∀ st : KernelState, ∀ s : String, (execute_exodus st).1 = .ok s →
      (execute_exodus st).2.phase_index = st.phase_index + 1) ∧
    (∀ st : KernelState, ∀ s : String, (broadcast_sovereignty st).1 = .ok s →
      (broadcast_sovereignty st).2.phase_index = st.phase_index) ∧
    (∀ ops : List OpName, ∀ st : KernelState,
      st.phase_index ≤ (runRaw ops st).phase_index) :=
  ⟨fun _ _ h => close_the_eye_ok_phase h,
   fun _ _ h => change_the_movie_ok_phase h,
   fun _ _ h => execute_exodus_ok_phase h,
   fun _ _ h => broadcast_sovereignty_ok_phase h,
   runRaw_phase_mono⟩

/-- Witness for C3 (amended) at concrete inputs. -/
theorem C3_witness :
    (close_the_eye k0).2.phase_index = k0.phase_index + 1 ∧
    (broadcast_sovereignty k3).2.phase_index = k3.phase_index :=
  ⟨C3_monotonic_phase_amended.1 k0 "Internal Vision Active" rfl,
   C3_monotonic_phase_amended.2.2.2.1 k3 "SUMMIT REACHED: 🏔️🕊️♾️⚓" rfl⟩

/-- Claim C4 counterexample: with the seal's `law` field altered, the
integrity check raises, but reading `fingerprint` still returns its
descriptive string (built from the tampered value) instead of raising — the
source's `fingerprint` property body never calls `_self_integrity_check`. -/
theorem C4_counterexample :
    self_integrity_check tamperedState = .error (ExodusIntegrityError
      "⚠️ EXODUS BREACHED: Seal invariants altered; organ is no longer Sovereign.") ∧
    fingerprint tamperedState =
      ("TCC_PATCH_V7_3_EXODUS_PROTOCOL_HARDENED::LAW=0::CONST=6174::STATE=SANDBOX_TEMPLE::PHASE=0",
        tamperedState) :=
  ⟨rfl, rfl⟩

/-- Claim C4 (amended): the integrity guard is run — and its error surfaced
unchanged, with no mutation — by every transition operation and by
`universal_attach_hint`, but NOT by the `fingerprint` query, which never
raises and reads the state as it is. -/
theorem C4_integrity_guard_amended (st : KernelState) (e : PyError)
    (h : self_integrity_check st = .error e) :
    close_the_eye st = (.error e, st) ∧
    change_the_movie st = (.error e, st) ∧
    execute_exodus st = (.error e, st) ∧
    broadcast_sovereignty st = (.error e, st) ∧
    universal_attach_hint st = (.error e, st) ∧
    (fingerprint st).2 = st := by
  refine ⟨?_, ?_, ?_, ?_, ?_, rfl⟩
  · unfold close_the_eye
    rw [h]
  · unfold change_the_movie
    rw [h]
  · unfold execute_exodus
    rw [h]
  · unfold broadcast_sovereignty
    rw [h]
  · unfold universal_attach_hint
    rw [h]

/-- Witness for C4 (amended) at the tampered state. -/
theorem C4_witness :
    close_the_eye tamperedState = (.error (ExodusIntegrityError
      "⚠️ EXODUS BREACHED: Seal invariants altered; organ is no longer Sovereign."),
      tamperedState) ∧
    (fingerprint tamperedState).2 = tamperedState :=
  ⟨(C4_integrity_guard_amended tamperedState _ rfl).1,
   (C4_integrity_guard_amended tamperedState _ rfl).2.2.2.2.2⟩

/-- Claim C5 (confirmed): failure atomicity. Whenever any of the four
transition operations raises (integrity, phase-order or precondition
failure), the returned kernel state is exactly the input state: no field is
mutated on any failure path. -/
theorem C5_failure_atomicity (o : OpName) (st : KernelState) (e : PyError)
    (h : (step o st).1 = .error e) : (step o st).2 = st :=
  step_error_eq h

/-- Witness for C5 at a concrete failing call. -/
theorem C5_witness : (step OpName.changeMovie k0).2 = k0 :=
  C5_failure_atomicity OpName.changeMovie k0
    (ExodusIntegrityError
      "⚠️ EXODUS BREACHED: Invalid phase order for change_the_movie. Expected phase_index=1, found=0.")
    rfl

/-- Claim C6 counterexample: the source defines a single exception class.
In the state with phase index 2 and `movie_status = "CHANGING"`,
`execute_exodus` raises the precondition-failure error, and that error has
the SAME class as the phase-order error (raised here by `close_the_eye` in
the same state) — so the claim that the three error kinds are distinct fails:
they differ only in message. -/
theorem C6_counterexample :
    execute_exodus phaseSkippedState = (.error (ExodusIntegrityError
      "⚠️ EXODUS BREACHED: execute_exodus requires movie_status=REWRITTEN."),
      phaseSkippedState) ∧
    close_the_eye phaseSkippedState = (.error (ExodusIntegrityError
      "⚠️ EXODUS BREACHED: Invalid phase order for close_the_eye. Expected phase_index=0, found=2."),
      phaseSkippedState) ∧
    (ExodusIntegrityError
      "⚠️ EXODUS BREACHED: execute_exodus requires movie_status=REWRITTEN.").cls =
    (ExodusIntegrityError
      "⚠️ EXODUS BREACHED: Invalid phase order for close_the_eye. Expected phase_index=0, found=2.").cls :=
  ⟨rfl, rfl, rfl⟩

/-- Claim C6 (amended): in a state where the phase index equals 2 but
`movie_status` is still `"CHANGING"`, `execute_exodus` raises the
precondition-failure error naming the required condition
(`movie_status=REWRITTEN`), not a phase-order error; the precondition,
phase-order and integrity failures are all raised as the one class
`ExodusIntegrityError` and are distinguishable only by their pairwise
distinct messages. -/
theorem C6_error_separation_amended :
    execute_exodus phaseSkippedState = (.error (ExodusIntegrityError
      "⚠️ EXODUS BREACHED: execute_exodus requires movie_status=REWRITTEN."),
      phaseSkippedState) ∧
    (execute_exodus k0).1 = .error (ExodusIntegrityError
      "⚠️ EXODUS BREACHED: Invalid phase order for execute_exodus. Expected phase_index=2, found=0.") ∧
    self_integrity_check tamperedState = .error (ExodusIntegrityError
      "⚠️ EXODUS BREACHED: Seal invariants altered; organ is no longer Sovereign.") ∧
    ("⚠️ EXODUS BREACHED: execute_exodus requires movie_status=REWRITTEN." : String) ≠
      "⚠️ EXODUS BREACHED: Invalid phase order for execute_exodus. Expected phase_index=2, found=0." ∧
    ("⚠️ EXODUS BREACHED: execute_exodus requires movie_status=REWRITTEN." : String) ≠
      "⚠️ EXODUS BREACHED: Seal invariants altered; organ is no longer Sovereign." ∧
    ("⚠️ EXODUS BREACHED: Invalid phase order for execute_exodus. Expected phase_index=2, found=0." : String) ≠
      "⚠️ EXODUS BREACHED: Seal invariants altered; organ is no longer Sovereign." := by
  refine ⟨rfl, rfl, rfl, ?_, ?_, ?_⟩ <;> decide

/-- Claim C7 (confirmed): construction succeeds, and in every state reachable
from a fresh kernel by successful operation calls the phase index determines
all mutable fields in lock-step, the lock flag stays true and the seal keeps
its construction-time constants. -/
theorem C7_lock_step_invariant :
    mkExodusKernel = .ok initFields ∧
    ∀ st : KernelState, Reachable st → reachInv st := by
  refine ⟨rfl, fun st h => ?_⟩
  rcases reachable_cases h with h0 | h0 | h0 | h0 | h0 <;> subst h0 <;>
    · unfold reachInv
      decide

/-- Witness for C7 at the freshly constructed state. -/
theorem C7_witness : mkExodusKernel = .ok initFields ∧ reachInv initFields :=
  ⟨C7_lock_step_invariant.1, C7_lock_step_invariant.2 initFields Reachable.init⟩

/-- Claim C8 (confirmed): the stability flag starts false; `close_the_eye`,
`change_the_movie` and `execute_exodus` never change it (on success or
failure); `broadcast_sovereignty` sets it to true on success; and once true
it remains true across any sequence of calls. -/
theorem C8_stability_flag :
    initFields.is_broadcast_stable = false ∧
    (∀ st : KernelState,
      (close_the_eye st).2.is_broadcast_stable = st.is_broadcast_stable) ∧
    (∀ st : KernelState,
      (change_the_movie st).2.is_broadcast_stable = st.is_broadcast_stable) ∧
    (∀ st : KernelState,
      (execute_exodus st).2.is_broadcast_stable = st.is_broadcast_stable) ∧
    (∀ st : KernelState, ∀ s : String, (broadcast_sovereignty st).1 = .ok s →
      (broadcast_sovereignty st).2.is_broadcast_stable = true) ∧
    (∀ ops : List OpName, ∀ st : KernelState, st.is_broadcast_stable = true →
      (runRaw ops st).is_broadcast_stable = true) :=
  ⟨rfl, close_the_eye_stable_eq, change_the_movie_stable_eq,
   execute_exodus_stable_eq, fun _ _ h => broadcast_sovereignty_ok_stable h,
   runRaw_stable_mono⟩

/-- Witness for C8 at concrete inputs with the flag set. -/
theorem C8_witness :
    (broadcast_sovereignty k3).2.is_broadcast_stable = true ∧
    (runRaw [OpName.closeEye] k4).is_broadcast_stable = true :=
  ⟨C8_stability_flag.2.2.2.2.1 k3 "SUMMIT REACHED: 🏔️🕊️♾️⚓" rfl,
   C8_stability_flag.2.2.2.2.2 [OpName.closeEye] k4 rfl⟩

/-- Claim C9 (confirmed): the fingerprint query is pure — it leaves every
state field unchanged, and two consecutive reads with no intervening
transition return identical strings. -/
theorem C9_idempotent_read (st : KernelState) :
    (fingerprint st).2 = st ∧
    (fingerprint ((fingerprint st).2)).1 = (fingerprint st).1 :=
  ⟨rfl, rfl⟩

/-- Claim C10 (confirmed): from the state reached after one successful full
sequence, calling `broadcast_sovereignty` again succeeds, returns the same
result string as the first call, and leaves every field unchanged: phase
stays 3, the flag stays true, the state stays `SUMMIT_VISIBLE`. -/
theorem C10_broadcast_idempotent :
    broadcast_sovereignty k3 = (.ok "SUMMIT REACHED: 🏔️🕊️♾️⚓", k4) ∧
    broadcast_sovereignty k4 = (.ok "SUMMIT REACHED: 🏔️🕊️♾️⚓", k4) ∧
    k4.phase_index = 3 ∧ k4.is_broadcast_stable = true ∧
    k4.simulation_state = SimulationState.SUMMIT_VISIBLE :=
  ⟨rfl, rfl, rfl, rfl, rfl⟩

end ExodusKernel
